import Mathlib

/-!
Verification of the ChatList multi-provider completion client.

We shallowly embed the core of the repository: the provider network layer
(`network.py`), the dispatcher (`models.py`) and the structured-reply
extractor (`prompt_improver.py`).  Python values flowing through these
functions are JSON-like dictionaries, so we model them with an inductive
`Json` type, and Python exceptions with an explicit `PyErr` error type
threaded through `Except`.
-/

set_option maxHeartbeats 1000000
set_option maxRecDepth 10000

/-- JSON-like Python values (parsed response bodies, settings, ...).
Numbers are modelled as integers; none of the embedded code paths depend on
non-integer numerals. -/
inductive Json where
  | null : Json
  | bool : Bool → Json
  | num : Int → Json
  | str : String → Json
  | arr : List Json → Json
  | obj : List (String × Json) → Json

/-- Python exception kinds raised by the embedded code. -/
inductive PyErr where
  | keyError : PyErr
  | indexError : PyErr
  | typeError : PyErr
  | attributeError : PyErr
deriving DecidableEq

/-- `str(e)` for the modelled exception kinds (only the class tag matters for
the claims; messages of Python exceptions are abbreviated to the class name). -/
def pyErrStr : PyErr → String
  | .keyError => "KeyError"
  | .indexError => "IndexError"
  | .typeError => "TypeError"
  | .attributeError => "AttributeError"

/-- The left-brace character (written via its code point). -/
def lbrace : Char := '\x7b'

/-- The right-brace character (written via its code point). -/
def rbrace : Char := '\x7d'

/-- The backtick character (written via its code point). -/
def btick : Char := Char.ofNat 96

/-- Python `bool(x)` truthiness of a JSON-like value. -/
def pyTruthy : Json → Bool
  | .null => false
  | .bool b => b
  | .num n => n ≠ 0
  | .str s => s ≠ ""
  | .arr xs => !xs.isEmpty
  | .obj kvs => !kvs.isEmpty

/-- Characters treated as whitespace by Python's `str.strip` and by the
regex class `\s` (ASCII subset; the embedded strings are ASCII/Cyrillic). -/
def pySpaceChar (c : Char) : Bool :=
  c = ' ' || c = '\t' || c = '\n' || c = '\r' || c = '\x0b' || c = '\x0c'

/-- Python `str.strip()` (no argument): trim whitespace on both ends. -/
def pyStrip (s : String) : String :=
  ⟨(s.data.dropWhile pySpaceChar).reverse.dropWhile pySpaceChar |>.reverse⟩

/-- Python `str.lstrip(chars)`: drop leading characters from the given set. -/
def pyLStrip (chars : List Char) (s : String) : String :=
  ⟨s.data.dropWhile (fun c => chars.contains c)⟩

/-- Python `str.lower()` for the character ranges that occur in the embedded
code (ASCII letters and Russian Cyrillic letters). -/
def pyLowerChar (c : Char) : Char :=
  if 'A' ≤ c ∧ c ≤ 'Z' then Char.ofNat (c.toNat + 32)
  else if c.toNat ≥ 0x410 ∧ c.toNat ≤ 0x42F then Char.ofNat (c.toNat + 0x20)
  else if c.toNat = 0x401 then Char.ofNat 0x451
  else c

/-- Python `str.lower()`. -/
def pyLower (s : String) : String := ⟨s.data.map pyLowerChar⟩

/-- Contiguous-sublist test on character lists. -/
def subListOf (n : List Char) : List Char → Bool
  | [] => n.isEmpty
  | c :: t => n.isPrefixOf (c :: t) || subListOf n t

/-- Python `needle in haystack` for strings (substring test). -/
def pySubstr (needle haystack : String) : Bool :=
  subListOf needle.data haystack.data

/-- Lookup in an embedded Python dict (association list, insertion order). -/
def jsonLookup (kvs : List (String × Json)) (k : String) : Option Json :=
  match kvs.find? (fun kv => kv.1 = k) with
  | some kv => some kv.2
  | none => none

/-- Insert-or-overwrite in an embedded Python dict, preserving insertion
order on overwrite (Python `d[k] = v`). -/
def jsonInsert (kvs : List (String × Json)) (k : String) (v : Json) :
    List (String × Json) :=
  if (kvs.find? (fun kv => kv.1 = k)).isSome then
    kvs.map (fun kv => if kv.1 = k then (k, v) else kv)
  else kvs ++ [(k, v)]

mutual
/-- Python `repr(x)` of a JSON-like value (used when the source interpolates a
parsed body into an f-string).  String quoting is simplified to plain single
quotes; no claim depends on the exact repr text. -/
def pyRepr : Json → String
  | .null => "None"
  | .bool b => if b then "True" else "False"
  | .num n => toString n
  | .str s => "'" ++ s ++ "'"
  | .arr xs => "[" ++ pyReprList xs ++ "]"
  | .obj kvs => String.mk [lbrace] ++ pyReprObj kvs ++ String.mk [rbrace]

/-- `repr` of a list of values, comma separated. -/
def pyReprList : List Json → String
  | [] => ""
  | [x] => pyRepr x
  | x :: xs => pyRepr x ++ ", " ++ pyReprList xs

/-- `repr` of dict items, comma separated. -/
def pyReprObj : List (String × Json) → String
  | [] => ""
  | [kv] => "'" ++ kv.1 ++ "': " ++ pyRepr kv.2
  | kv :: kvs => "'" ++ kv.1 ++ "': " ++ pyRepr kv.2 ++ ", " ++ pyReprObj kvs
end

/-- Python `str(x)` of a JSON-like value. -/
def pyStr : Json → String
  | .str s => s
  | j => pyRepr j

/-- Python `len(x)`; raises `TypeError` on values without a length. -/
def pyLen : Json → Except PyErr Nat
  | .str s => .ok s.length
  | .arr xs => .ok xs.length
  | .obj kvs => .ok kvs.length
  | _ => .error .typeError

mutual
/-- Boolean structural equality of JSON-like values, modelling Python `==`
on the value space produced by JSON decoding. -/
def jsonBeq : Json → Json → Bool
  | .null, .null => true
  | .bool a, .bool b => a = b
  | .num a, .num b => a = b
  | .str a, .str b => a = b
  | .arr a, .arr b => jsonBeqList a b
  | .obj a, .obj b => jsonBeqObj a b
  | _, _ => false

/-- Elementwise equality of JSON lists. -/
def jsonBeqList : List Json → List Json → Bool
  | [], [] => true
  | a :: as', b :: bs' => jsonBeq a b && jsonBeqList as' bs'
  | _, _ => false

/-- Itemwise equality of JSON dicts (insertion order sensitive; the embedded
code only ever compares strings, so this refinement is unobservable). -/
def jsonBeqObj : List (String × Json) → List (String × Json) → Bool
  | [], [] => true
  | a :: as', b :: bs' => a.1 = b.1 && jsonBeq a.2 b.2 && jsonBeqObj as' bs'
  | _, _ => false
end

/-- Python subscription `container[index]` on JSON-like values. -/
def pyGetItem : Json → Json → Except PyErr Json
  | .obj kvs, .str k =>
    match jsonLookup kvs k with
    | some v => .ok v
    | none => .error .keyError
  | .obj _, _ => .error .keyError
  | .arr xs, .num i =>
    let n : Int := xs.length
    let i' := if i < 0 then i + n else i
    if 0 ≤ i' ∧ i' < n then .ok (xs.getD i'.toNat .null)
    else .error .indexError
  | .arr _, _ => .error .typeError
  | .str s, .num i =>
    let n : Int := s.length
    let i' := if i < 0 then i + n else i
    if 0 ≤ i' ∧ i' < n then .ok (.str ⟨[s.data.getD i'.toNat ' ']⟩)
    else .error .indexError
  | .str _, _ => .error .typeError
  | _, _ => .error .typeError

/-- Python membership `k in x` for a string key against a JSON-like value:
dict key test, substring test for strings, element test for lists,
`TypeError` otherwise. -/
def pyContains (k : String) : Json → Except PyErr Bool
  | .obj kvs => .ok ((jsonLookup kvs k).isSome)
  | .str s => .ok (pySubstr k s)
  | .arr xs => .ok (xs.any (fun x => jsonBeq x (.str k)))
  | _ => .error .typeError

/-! ### A model of Python's `json.loads`

The repository calls `json.loads` on extracted substrings
(`prompt_improver._parse_response`) and on provider error envelopes
(`network.OpenRouterProvider.send_request`).  We model it with a fuel-based
recursive-descent parser.  Non-integer numerals are rejected (returned as a
parse failure); no code path in the repository depends on them. -/

/-- JSON whitespace characters accepted by Python's `json` module. -/
def jsonWsChar (c : Char) : Bool :=
  c = ' ' || c = '\t' || c = '\n' || c = '\r'

/-- Skip JSON whitespace. -/
def skipJWs (cs : List Char) : List Char := cs.dropWhile jsonWsChar

/-- Value of one hexadecimal digit. -/
def hexVal (c : Char) : Option Nat :=
  if '0' ≤ c ∧ c ≤ '9' then some (c.toNat - 48)
  else if 'a' ≤ c ∧ c ≤ 'f' then some (c.toNat - 87)
  else if 'A' ≤ c ∧ c ≤ 'F' then some (c.toNat - 55)
  else none

/-- Parse the body of a JSON string (cursor just past the opening quote),
returning the decoded text and the remainder past the closing quote. -/
def parseJString : Nat → List Char → Option (String × List Char)
  | 0, _ => none
  | _ + 1, [] => none
  | fuel + 1, c :: rest =>
    if c = '"' then some ("", rest)
    else if c = '\\' then
      match rest with
      | [] => none
      | e :: rest2 =>
        let esc : Option (Char × List Char) :=
          if e = '"' then some ('"', rest2)
          else if e = '\\' then some ('\\', rest2)
          else if e = '/' then some ('/', rest2)
          else if e = 'b' then some ('\x08', rest2)
          else if e = 'f' then some ('\x0c', rest2)
          else if e = 'n' then some ('\n', rest2)
          else if e = 'r' then some ('\r', rest2)
          else if e = 't' then some ('\t', rest2)
          else if e = 'u' then
            match rest2 with
            | a :: b :: c2 :: d :: rest3 =>
              match hexVal a, hexVal b, hexVal c2, hexVal d with
              | some x, some y, some z, some w =>
                some (Char.ofNat (((x * 16 + y) * 16 + z) * 16 + w), rest3)
              | _, _, _, _ => none
            | _ => none
          else none
        match esc with
        | some (ch, r) =>
          (parseJString fuel r).map (fun p => (⟨ch :: p.1.data⟩, p.2))
        | none => none
    else if c.toNat < 0x20 then none
    else (parseJString fuel rest).map (fun p => (⟨c :: p.1.data⟩, p.2))

/-- Parse a JSON integer literal (floats rejected, as documented above). -/
def parseJInt (cs : List Char) : Option (Int × List Char) :=
  let (neg, cs1) := match cs with
    | '-' :: t => (true, t)
    | _ => (false, cs)
  let ds := cs1.takeWhile Char.isDigit
  let rest := cs1.dropWhile Char.isDigit
  if ds.isEmpty then none
  else if ds.length > 1 ∧ ds.headD '0' = '0' then none
  else match rest with
    | '.' :: _ => none
    | 'e' :: _ => none
    | 'E' :: _ => none
    | _ =>
      let n : Nat := ds.foldl (fun acc c => acc * 10 + (c.toNat - 48)) 0
      some (if neg then -(n : Int) else (n : Int), rest)

/-- Collapse duplicate keys the way a Python dict does (last wins). -/
def dedupKvs (kvs : List (String × Json)) : List (String × Json) :=
  kvs.foldl (fun acc kv => jsonInsert acc kv.1 kv.2) []

mutual
/-- Parse one JSON value (leading whitespace allowed). -/
def parseJVal : Nat → List Char → Option (Json × List Char)
  | 0, _ => none
  | fuel + 1, cs0 =>
    let cs := skipJWs cs0
    match cs with
    | [] => none
    | c :: rest =>
      if c = '"' then
        (parseJString (rest.length + 1) rest).map (fun p => (.str p.1, p.2))
      else if c = lbrace then
        (parseJObjItems fuel true (skipJWs rest)).map
          (fun p => (.obj (dedupKvs p.1), p.2))
      else if c = '[' then
        (parseJArrItems fuel true (skipJWs rest)).map (fun p => (.arr p.1, p.2))
      else if "true".data.isPrefixOf cs then some (.bool true, cs.drop 4)
      else if "false".data.isPrefixOf cs then some (.bool false, cs.drop 5)
      else if "null".data.isPrefixOf cs then some (.null, cs.drop 4)
      else (parseJInt cs).map (fun p => (.num p.1, p.2))

/-- Parse array items (cursor past `[`, whitespace skipped); `allowEmpty`
is true only before the first item, ruling out trailing commas. -/
def parseJArrItems : Nat → Bool → List Char → Option (List Json × List Char)
  | 0, _, _ => none
  | fuel + 1, allowEmpty, cs =>
    match cs with
    | ']' :: rest => if allowEmpty then some ([], rest) else none
    | _ =>
      (parseJVal fuel cs).bind (fun p =>
        match skipJWs p.2 with
        | ',' :: r2 =>
          (parseJArrItems fuel false (skipJWs r2)).map
            (fun q => (p.1 :: q.1, q.2))
        | ']' :: r2 => some ([p.1], r2)
        | _ => none)

/-- Parse object items (cursor past the opening brace, whitespace skipped). -/
def parseJObjItems : Nat → Bool → List Char →
    Option (List (String × Json) × List Char)
  | 0, _, _ => none
  | fuel + 1, allowEmpty, cs =>
    match cs with
    | [] => none
    | c :: rest =>
      if c = rbrace then (if allowEmpty then some ([], rest) else none)
      else if c = '"' then
        (parseJString (rest.length + 1) rest).bind (fun pk =>
          match skipJWs pk.2 with
          | ':' :: r2 =>
            (parseJVal fuel (skipJWs r2)).bind (fun pv =>
              match skipJWs pv.2 with
              | ',' :: r4 =>
                (parseJObjItems fuel false (skipJWs r4)).map
                  (fun q => ((pk.1, pv.1) :: q.1, q.2))
              | c2 :: r4 =>
                if c2 = rbrace then some ([(pk.1, pv.1)], r4) else none
              | [] => none)
          | _ => none)
      else none
end

/-- Model of Python `json.loads`: parse the whole string as one JSON value
(`None` models a raised `json.JSONDecodeError`). -/
def json_loads (s : String) : Option Json :=
  match parseJVal (4 * s.length + 16) s.data with
  | some (j, rest) => if (skipJWs rest).isEmpty then some j else none
  | none => none

/-- Python `str.find(c)`: index of the first occurrence, if any. -/
def pyFind (c : Char) (s : String) : Option Nat :=
  s.data.findIdx? (fun x => x = c)

/-- Python `str.rfind(c)`: index of the last occurrence, if any. -/
def pyRFind (c : Char) (s : String) : Option Nat :=
  match s.data.reverse.findIdx? (fun x => x = c) with
  | some i => some (s.length - 1 - i)
  | none => none

/-- Python slice `s[a:b]` for `0 ≤ a ≤ b`. -/
def pySlice (s : String) (a b : Nat) : String :=
  ⟨(s.data.drop a).take (b - a)⟩

/-- Python `s[:n]`. -/
def pyTake (s : String) (n : Nat) : String := ⟨s.data.take n⟩

/-! ### network.py — provider transport layer

The HTTP library is abstracted by a transport oracle `t : Nat → PostResult`
giving, for each attempt index, the outcome of that `session.post` /
`requests.post` call.  Environment-driven tuning of the request parameters
(`USE_VPN` timeout doubling, `DISABLE_SSL_VERIFY`, attribution headers) only
changes the arguments of the HTTP call, which the oracle absorbs, so it is
not modelled separately. -/

/-- One HTTP attempt as seen by `send_request`'s `try` block: a response
(with status and decoded body, `none` body = undecodable JSON), or one of
the exception classes distinguished by its `except` clauses. -/
inductive PostResult where
  | ok (status : Nat) (body : Option Json)
  | proxyError (msg : String)
  | sslError (msg : String)
  | timeout
  | reqError (msg : String)
  | otherExc (msg : String)

/-- A result dict flowing out of the send layer.  Optional fields model
keys that are absent from the Python dict. -/
structure Outcome where
  success : Bool
  text : Json := .str ""
  error : Option Json := none
  raw_response : Option Json := none
  model_name : Option String := none
  model_id : Option Int := none

/-- The literal failure dict `{success: False, error: e, text: ""}`. -/
def failOut (e : Json) : Outcome :=
  { success := false, error := some e, text := .str "" }

/-- One full `send_request` run: final outcome, number of HTTP attempts
performed, the backoff sleeps issued (in order), and whether the session's
proxies were force-disabled. -/
structure RunResult where
  outcome : Outcome
  attempts : Nat
  sleeps : List Nat
  proxyDisabled : Bool

/-- `max_ssl_retries` from `OpenRouterProvider.send_request`. -/
def max_ssl_retries : Nat := 3

/-- `ssl_retry_delay` (seconds) from `OpenRouterProvider.send_request`. -/
def ssl_retry_delay : Nat := 2

/-- Shared body of the four providers' `parse_response`: read
`choices[0].message.content` from the decoded body, returning `""` when
`choices` is missing or empty; `KeyError`/`IndexError`/`json.JSONDecodeError`
are caught (yielding `""`), other exceptions (notably `TypeError`) escape. -/
def parse_response (body : Option Json) : Except PyErr Json :=
  match body with
  | none => .ok (.str "")
  | some data =>
    let r : Except PyErr Json := do
      let c ← pyContains "choices" data
      if c then
        let ch ← pyGetItem data (.str "choices")
        let n ← pyLen ch
        if n > 0 then
          let e0 ← pyGetItem ch (.num 0)
          let m ← pyGetItem e0 (.str "message")
          pyGetItem m (.str "content")
        else pure (.str "")
      else pure (.str "")
    match r with
    | .error .keyError => .ok (.str "")
    | .error .indexError => .ok (.str "")
    | .error e => .error e
    | .ok v => .ok v

/-- `str(e)` of a `requests` `HTTPError` for a given status (abbreviated;
no claim depends on the exact text). -/
def httpErrorStr (status : Nat) : String :=
  toString status ++ " HTTP Error"

/-- `str(e)` of a `JSONDecodeError` from `response.json()` on a 2xx body. -/
def json_decode_error_str : String :=
  "Expecting value: line 1 column 1 (char 0)"

/-- The region-unsupported message built at network.py:567-572. -/
def orRegionMsg (model : String) (pname msg : Json) : String :=
  "Модель " ++ model ++ " (провайдер: " ++ pyStr pname ++
  ") недоступна в вашем регионе. Попробуйте использовать другую модель через OpenRouter (например, meta-llama, anthropic/claude, google/gemini и др.). Ошибка: "
  ++ pyStr msg

/-- The request-not-allowed message built at network.py:577-580. -/
def orNotAllowedMsg (model : String) (pname : Json) : String :=
  "Модель " ++ model ++ " (провайдер: " ++ pyStr pname ++
  "): запрос не разрешён. Возможно, требуется специальный API-ключ или модель недоступна для вашего аккаунта."

/-- The model-not-found message built at network.py:590-594. -/
def orNoEndpointsMsg (model : String) : String :=
  "Модель " ++ model ++
  " не найдена в OpenRouter. Возможно, модель была удалена или переименована. Проверьте актуальный список моделей на https://openrouter.ai/models"

/-- The generic bad-request message built at network.py:600-604. -/
def orBadRequestMsg (model : String) : String :=
  "Некорректный запрос для модели " ++ model ++
  ". Возможно, имя модели указано неверно или модель больше не поддерживается. Проверьте актуальный список моделей на https://openrouter.ai/models"

/-- The inner `try`/`except: pass` at network.py:555-584: decode the
provider's nested error from `error_info.metadata.raw` and curate a message;
any exception inside leaves `user_friendly_error` unset. -/
def orProviderError (model : String) (error_info : Json) : Option Json :=
  match (pyGetItem error_info (.str "metadata")).bind
      (fun md => pyGetItem md (.str "raw")) with
  | .error _ => none
  | .ok raw =>
    match raw with
    | .str rawS =>
      match json_loads rawS with
      | none => none
      | some pe =>
        match pyContains "error" pe with
        | .error _ => none
        | .ok false => none
        | .ok true =>
          match pyGetItem pe (.str "error") with
          | .error _ => none
          | .ok perr =>
            match perr with
            | .obj kvs =>
              let code := (jsonLookup kvs "code").getD (.str "")
              let msg := (jsonLookup kvs "message").getD (.str "")
              match pyContains "unsupported_country_region_territory" code with
              | .error _ => none
              | .ok true =>
                match error_info with
                | .obj eik =>
                  let pname := (jsonLookup eik "provider_name").getD (.str "Unknown")
                  some (.str (orRegionMsg model pname msg))
                | _ => none
              | .ok false =>
                match pyContains "Request not allowed" msg with
                | .error _ => none
                | .ok true =>
                  match error_info with
                  | .obj eik =>
                    let pname := (jsonLookup eik "provider_name").getD (.str "Unknown")
                    some (.str (orNotAllowedMsg model pname))
                  | _ => none
                | .ok false =>
                  some (.str (pyStr msg ++ " (код: " ++ pyStr code ++ ")"))
            | _ => none
    | _ => none

/-- Python truthiness of the `user_friendly_error` local (None is falsy,
and so is an empty extracted message). -/
def ufFalsy : Option Json → Bool
  | none => true
  | some v => !pyTruthy v

/-- The outer `try` of the 400/401/403/404 handler (network.py:546-608):
returns the `user_friendly_error` reached so far and whether the bare
`except:` fired (in which case `error_details` takes its Status form). -/
def or4xxTry (status : Nat) (model : String) (eb : Json) :
    Option Json × Bool :=
  match pyContains "error" eb with
  | .error _ => (none, true)
  | .ok false => (none, false)
  | .ok true =>
    match pyGetItem eb (.str "error") with
    | .error _ => (none, true)
    | .ok error_info =>
      match pyContains "metadata" error_info with
      | .error _ => (none, true)
      | .ok hasMeta =>
        let metaOk : Except PyErr Bool :=
          if hasMeta then
            (pyGetItem error_info (.str "metadata")).bind
              (fun md => pyContains "raw" md)
          else .ok false
        match metaOk with
        | .error _ => (none, true)
        | .ok mOk =>
          let uf0 : Option Json :=
            if mOk then orProviderError model error_info else none
          if ufFalsy uf0 then
            match pyContains "message" error_info with
            | .error _ => (uf0, true)
            | .ok hasMsg =>
              if hasMsg then
                match pyGetItem error_info (.str "message") with
                | .error _ => (uf0, true)
                | .ok emsg =>
                  match pyContains "No endpoints found" emsg with
                  | .error _ => (uf0, true)
                  | .ok noEp =>
                    let uf1 : Option Json :=
                      some (if noEp then .str (orNoEndpointsMsg model) else emsg)
                    let uf2 := if status = 400 ∧ ufFalsy uf1 then
                        some (.str (orBadRequestMsg model)) else uf1
                    (uf2, false)
              else
                let uf2 := if status = 400 ∧ ufFalsy uf0 then
                    some (.str (orBadRequestMsg model)) else uf0
                (uf2, false)
          else (uf0, false)

/-- The final error value returned for a permanent 400/401/403/404 response:
the curated `user_friendly_error` when truthy, else `error_details`. -/
def or4xxFinalError (status : Nat) (model : String) (body : Option Json) :
    Json :=
  match body with
  | none => .str (httpErrorStr status ++ ". Status: " ++ toString status)
  | some eb =>
    let r := or4xxTry status model eb
    let errorDetails :=
      if r.2 then httpErrorStr status ++ ". Status: " ++ toString status
      else httpErrorStr status ++ ". Response: " ++ pyRepr eb
    match r.1 with
    | some v => if pyTruthy v then v else .str errorDetails
    | none => .str errorDetails

/-- The final proxy failure message (network.py:485-488). -/
def orProxyFinalMsg : String :=
  "Ошибка подключения к прокси. Проверьте настройки прокси или отключите его в настройках системы."

/-- The final SSL failure message (network.py:505-515). -/
def orSslFinalMsg : String :=
  "Ошибка SSL соединения. Возможные причины:\n1. Проблемы с интернет-соединением\n2. Блокировка антивирусом или файрволом\n3. Устаревшие SSL сертификаты\n4. Проблемы на стороне сервера OpenRouter\n\nПопробуйте:\n- Проверить интернет-соединение\n- Временно отключить антивирус/файрвол\n- Повторить запрос через несколько минут"

/-- The final timeout failure message (network.py:528-531). -/
def orTimeoutFinalMsg : String :=
  "Request timeout. Проверьте интернет-соединение."

/-- The retry loop body of `OpenRouterProvider.send_request`
(network.py:431-650), one constructor branch per `except` clause.  `fuel`
counts the remaining loop iterations (`max_ssl_retries - attempt`), `attempt`
is the 0-based loop index, `sleeps` and `disabled` accumulate the backoff
sleeps and the proxy-disable side effect. -/
def orGo (model : String) (t : Nat → PostResult) :
    Nat → Nat → List Nat → Bool → RunResult
  | 0, attempt, sleeps, disabled =>
    ⟨failOut (.str "Не удалось выполнить запрос после всех попыток"),
      attempt, sleeps, disabled⟩
  | fuel + 1, attempt, sleeps, disabled =>
    match t attempt with
    | .ok status body =>
      if status < 400 then
        match parse_response body with
        | .ok text =>
          match body with
          | some b =>
            ⟨{ success := true, text := text, raw_response := some b },
              attempt + 1, sleeps, disabled⟩
          | none =>
            -- `raw_response: response.json()` raises a requests
            -- JSONDecodeError (a RequestException without usable status):
            -- generic retry path, then `error_details` surfaces
            if attempt < max_ssl_retries - 1 then
              orGo model t fuel (attempt + 1) (sleeps ++ [ssl_retry_delay]) disabled
            else
              ⟨failOut (.str json_decode_error_str), attempt + 1, sleeps, disabled⟩
        | .error e =>
          -- a non-caught parse exception hits `except Exception`
          if attempt < max_ssl_retries - 1 then
            orGo model t fuel (attempt + 1) (sleeps ++ [ssl_retry_delay]) disabled
          else
            ⟨failOut (.str ("Неожиданная ошибка: " ++ pyErrStr e)),
              attempt + 1, sleeps, disabled⟩
      else if status = 400 ∨ status = 403 ∨ status = 401 ∨ status = 404 then
        ⟨failOut (or4xxFinalError status model body), attempt + 1, sleeps, disabled⟩
      else if status = 500 ∨ status = 502 ∨ status = 503 ∨ status = 504 then
        if attempt < max_ssl_retries - 1 then
          orGo model t fuel (attempt + 1)
            (sleeps ++ [ssl_retry_delay * (attempt + 1)]) disabled
        else
          ⟨failOut (.str ("Ошибка сервера (код " ++ toString status ++
            "). Попробуйте позже.")), attempt + 1, sleeps, disabled⟩
      else
        -- other HTTP errors (e.g. 429): the handler's final `else`
        if attempt < max_ssl_retries - 1 then
          orGo model t fuel (attempt + 1) (sleeps ++ [ssl_retry_delay]) disabled
        else
          ⟨failOut (.str (httpErrorStr status)), attempt + 1, sleeps, disabled⟩
    | .proxyError msg =>
      if attempt = 0 ∧ pySubstr "Cannot connect to proxy" msg then
        orGo model t fuel (attempt + 1) sleeps true
      else if attempt < max_ssl_retries - 1 then
        orGo model t fuel (attempt + 1)
          (sleeps ++ [ssl_retry_delay * (attempt + 1)]) disabled
      else
        ⟨failOut (.str orProxyFinalMsg), attempt + 1, sleeps, disabled⟩
    | .sslError _ =>
      if attempt < max_ssl_retries - 1 then
        orGo model t fuel (attempt + 1)
          (sleeps ++ [ssl_retry_delay * (attempt + 1)]) disabled
      else
        ⟨failOut (.str orSslFinalMsg), attempt + 1, sleeps, disabled⟩
    | .timeout =>
      if attempt < max_ssl_retries - 1 then
        orGo model t fuel (attempt + 1) (sleeps ++ [ssl_retry_delay]) disabled
      else
        ⟨failOut (.str orTimeoutFinalMsg), attempt + 1, sleeps, disabled⟩
    | .reqError msg =>
      -- RequestException without a response: status_code is None
      if attempt < max_ssl_retries - 1 then
        orGo model t fuel (attempt + 1) (sleeps ++ [ssl_retry_delay]) disabled
      else
        ⟨failOut (.str msg), attempt + 1, sleeps, disabled⟩
    | .otherExc msg =>
      if attempt < max_ssl_retries - 1 then
        orGo model t fuel (attempt + 1) (sleeps ++ [ssl_retry_delay]) disabled
      else
        ⟨failOut (.str ("Неожиданная ошибка: " ++ msg)), attempt + 1, sleeps, disabled⟩

/-- `OpenRouterProvider.send_request` (network.py:379-658): model-name
defaulting, blank-credential precheck, then the bounded retry loop. -/
def openRouter_send_request (api_key model0 : String)
    (t : Nat → PostResult) : RunResult :=
  let model := if model0 = "" then "openai/gpt-3.5-turbo" else model0
  if api_key = "" ∨ pyStrip api_key = "" then
    ⟨failOut (.str "API key is not set. Please check your .env file."),
      0, [], false⟩
  else orGo model t max_ssl_retries 0 [] false

/-- `OpenAIProvider.send_request` (network.py:149-214): a single
`requests.post`, no retry loop (`DeepSeekProvider` and `GroqProvider` have
the same shape). -/
def openai_send_request (t : Nat → PostResult) : RunResult :=
  match t 0 with
  | .ok status body =>
    if status < 400 then
      match body with
      | none =>
        -- `result = response.json()` raises (RequestException branch,
        -- exception without usable response)
        ⟨failOut (.str json_decode_error_str), 1, [], false⟩
      | some b =>
        match parse_response body with
        | .ok text => ⟨{ success := true, text := text, raw_response := some b }, 1, [], false⟩
        | .error e =>
          ⟨failOut (.str ("Unexpected error: " ++ pyErrStr e)), 1, [], false⟩
    else
      let details := match body with
        | some eb => httpErrorStr status ++ ". Response: " ++ pyRepr eb
        | none => httpErrorStr status ++ ". Status: " ++ toString status
      ⟨failOut (.str details), 1, [], false⟩
  | .timeout => ⟨failOut (.str "Request timeout"), 1, [], false⟩
  | .proxyError msg => ⟨failOut (.str msg), 1, [], false⟩
  | .sslError msg => ⟨failOut (.str msg), 1, [], false⟩
  | .reqError msg => ⟨failOut (.str msg), 1, [], false⟩
  | .otherExc msg => ⟨failOut (.str ("Unexpected error: " ++ msg)), 1, [], false⟩

/-! ### models.py — ModelManager (the completion dispatcher)

The registry (`db.get_active_models`) is an external collaborator: the list
of active model rows, in registry order, is an input.  The credential store
(`os.getenv` after `load_dotenv`) is a function `env : String → Option
String`.  The provider network layer is abstracted by an oracle `net`
returning the dict produced by `provider.send_request` (or a raised
exception, for the dispatcher's `except` branch). -/

/-- One row of the `models` table as handed to the dispatcher. -/
structure Model where
  id : Int
  name : String
  api_url : String
  api_id : String
  model_name : Option String

/-- A constructed provider instance: which family class was instantiated
plus the constructor arguments it permanently stores
(`APIProvider.__init__`). -/
structure Provider where
  ptype : String
  api_key : String
  api_url : String
  timeout : Nat
  verify_ssl : Bool
deriving DecidableEq

/-- `os.getenv(name, '').lower() in ['true', '1', 'yes']`. -/
def envFlagTrue (env : String → Option String) (name : String) : Bool :=
  ["true", "1", "yes"].contains (pyLower ((env name).getD ""))

/-- `ModelManager.load_api_key` (models.py:53-72): look the credential up in
the environment; a whitespace-only value is mapped to `None`, an empty
string is returned as-is (and is falsy downstream), otherwise the key. -/
def load_api_key (env : String → Option String) (api_id : String) :
    Option String :=
  match env api_id with
  | none => none
  | some k => if k = "" then some "" else
      if pyStrip k = "" then none else some k

/-- Python truthiness of the returned key (`if not api_key`). -/
def keyTruthy : Option String → Bool
  | none => false
  | some s => s ≠ ""

/-- `network.detect_provider_type` (network.py:707-729): case-insensitive
substring markers in fixed priority order, defaulting to `openai`. -/
def detect_provider_type (api_url : String) : String :=
  let u := pyLower api_url
  if pySubstr "openrouter" u then "openrouter"
  else if pySubstr "openai" u then "openai"
  else if pySubstr "deepseek" u then "deepseek"
  else if pySubstr "groq" u then "groq"
  else "openai"

/-- `network.create_provider` (network.py:672-704): resolve the SSL toggle
from the environment when not given, then instantiate the family matching
the (lowercased) provider type, or `None` for an unknown type. -/
def create_provider (env : String → Option String)
    (provider_type api_key api_url : String) (timeout : Nat)
    (verify_ssl : Option Bool) : Option Provider :=
  let verify := match verify_ssl with
    | some b => b
    | none => !(envFlagTrue env "DISABLE_SSL_VERIFY")
  let pt := pyLower provider_type
  if pt = "openai" ∨ pt = "deepseek" ∨ pt = "groq" ∨ pt = "openrouter" then
    some ⟨pt, api_key, api_url, timeout, verify⟩
  else none

/-- Result of `_get_provider`: the provider (if any), the updated adapter
cache, and which credential names were read from the environment. -/
structure GetProviderResult where
  provider : Option Provider
  cache : List (Int × Provider)
  credReads : List String

/-- `ModelManager._get_provider` (models.py:74-110): cache hit wins without
consulting the credential store; on a miss, a falsy key aborts (uncached),
otherwise the provider is built and cached under the model id. -/
def _get_provider (env : String → Option String) (timeout : Nat)
    (cache : List (Int × Provider)) (m : Model) : GetProviderResult :=
  match cache.lookup m.id with
  | some p => ⟨some p, cache, []⟩
  | none =>
    let api_key := load_api_key env m.api_id
    if !keyTruthy api_key then ⟨none, cache, [m.api_id]⟩
    else
      let provider_type := detect_provider_type m.api_url
      match create_provider env provider_type (api_key.getD "") m.api_url
          timeout none with
      | some p => ⟨some p, (m.id, p) :: cache, [m.api_id]⟩
      | none => ⟨none, cache, [m.api_id]⟩

/-- `ModelManager.clear_cache` (models.py:177-180). -/
def clear_cache (_cache : List (Int × Provider)) : List (Int × Provider) :=
  []

/-- The effective model identifier sent to the API (models.py:136-140):
`model_name` when present and non-blank, else the display `name`. -/
def api_model_name (m : Model) : String :=
  match m.model_name with
  | none => m.name
  | some s => if s = "" ∨ pyStrip s = "" then m.name else s

/-- Result of one `send_prompt_to_model` call: the outcome, the updated
adapter cache, how many times `provider.send_request` was invoked, and the
credential reads performed. -/
structure SendResult where
  outcome : Outcome
  cache : List (Int × Provider)
  netCalls : Nat
  credReads : List String

/-- `ModelManager.send_prompt_to_model` (models.py:112-154): resolve the
provider (auth failure dict when unavailable), else call its
`send_request` through the oracle and stamp the outcome with the model's
name and id; a raised exception becomes the `except` branch's dict. -/
def send_prompt_to_model (env : String → Option String) (timeout : Nat)
    (net : Provider → String → String → Except String Outcome)
    (prompt : String) (m : Model) (cache : List (Int × Provider)) :
    SendResult :=
  let g := _get_provider env timeout cache m
  match g.provider with
  | none =>
    ⟨{ success := false,
       error := some (.str ("Provider not available for model " ++ m.name)),
       text := .str "", model_name := some m.name }, g.cache, 0, g.credReads⟩
  | some p =>
    match net p (api_model_name m) prompt with
    | .ok r =>
      ⟨{ r with model_name := some m.name, model_id := some m.id },
        g.cache, 1, g.credReads⟩
    | .error e =>
      ⟨{ success := false, error := some (.str e), text := .str "",
         model_name := some m.name, model_id := some m.id },
        g.cache, 1, g.credReads⟩

/-- Result of a full dispatch round. -/
structure DispatchResult where
  outcomes : List Outcome
  cache : List (Int × Provider)
  netCalls : Nat
  credReads : List String

/-- `ModelManager.send_prompt_to_all_active` (models.py:156-175): iterate
over the active models in registry order, appending one outcome each and
threading the adapter cache. -/
def send_prompt_to_all_active (env : String → Option String) (timeout : Nat)
    (net : Provider → String → String → Except String Outcome)
    (prompt : String) (active_models : List Model)
    (cache : List (Int × Provider)) : DispatchResult :=
  match active_models with
  | [] => ⟨[], cache, 0, []⟩
  | m :: ms =>
    let r := send_prompt_to_model env timeout net prompt m cache
    let rest := send_prompt_to_all_active env timeout net prompt ms r.cache
    ⟨r.outcome :: rest.outcomes, rest.cache, r.netCalls + rest.netCalls,
      r.credReads ++ rest.credReads⟩

/-! ### prompt_improver.py — the structured-reply extractor -/

/-- The two dict shapes `_parse_response` can return: the error-only dict
`{success: False, error: ...}` or the parsed dict
`{success: True, improved, alternatives, adaptations}`. -/
inductive ImproveResult where
  | failure (error : String)
  | parsed (improved : String) (alternatives : List String)
      (adaptations : List (String × String))

/-- `PromptImprover._validate_parsed_data` (prompt_improver.py:200-240).
`data.get("improved", "").strip()` raises `AttributeError` when `data` is
not a dict or maps `improved` to a non-string; everything else is total. -/
def _validate_parsed_data (data : Json) : Except PyErr ImproveResult :=
  match data with
  | .obj kvs =>
    match (jsonLookup kvs "improved").getD (.str "") with
    | .str s =>
      let improved := pyStrip s
      let altList := match (jsonLookup kvs "alternatives").getD (.arr []) with
        | .arr xs => xs
        | _ => []
      let alternatives := (altList.filterMap (fun alt =>
          if pyTruthy alt ∧ pyStrip (pyStr alt) ≠ "" then
            some (pyStrip (pyStr alt))
          else none)).take 3
      let adaptations := match (jsonLookup kvs "adaptations").getD (.obj []) with
        | .obj akvs => akvs
        | _ => []
      let normalized := ["code", "analysis", "creative"].filterMap (fun key =>
          match jsonLookup adaptations key with
          | some v => if pyTruthy v then some (key, pyStrip (pyStr v)) else none
          | none => none)
      .ok (.parsed improved alternatives normalized)
    | _ => .error .attributeError
  | _ => .error .attributeError

/-- The literal three-backtick fence marker. -/
def fenceMark : List Char := "```".data

/-- Does a fence marker start here? -/
def isFencePrefix (cs : List Char) : Bool := fenceMark.isPrefixOf cs

/-- Scan `.*?\}` non-greedily: the first closing brace followed by
`\s*` and a closing fence ends the group. -/
def scanFenceBody : Nat → List Char → List Char → Option (List Char)
  | 0, _, _ => none
  | _ + 1, _, [] => none
  | fuel + 1, acc, c :: rest =>
    if c = rbrace ∧ isFencePrefix (rest.dropWhile pySpaceChar) then
      some acc.reverse
    else scanFenceBody fuel (c :: acc) rest

/-- Match `\s*(\{.*?\})\s*`+fence at the cursor, returning group 1. -/
def fenceTryFrom (after : List Char) : Option String :=
  match after.dropWhile pySpaceChar with
  | c :: body =>
    if c = lbrace then
      match scanFenceBody (body.length + 1) [] body with
      | some content => some ⟨lbrace :: (content ++ [rbrace])⟩
      | none => none
    else none
  | [] => none

/-- Try the whole fence pattern anchored at this position (the optional
`json` marker is matched greedily first, case-insensitively). -/
def matchFenceAt (cs : List Char) : Option String :=
  if isFencePrefix cs then
    let rest := cs.drop 3
    let tryJson : Option String :=
      if (rest.take 4).map pyLowerChar = "json".data then
        fenceTryFrom (rest.drop 4)
      else none
    match tryJson with
    | some g => some g
    | none => fenceTryFrom rest
  else none

/-- Leftmost-match search loop. -/
def fenceSearchAux : Nat → List Char → Option String
  | 0, _ => none
  | _ + 1, [] => none
  | fuel + 1, c :: rest =>
    match matchFenceAt (c :: rest) with
    | some g => some g
    | none => fenceSearchAux fuel rest

/-- Model of `re.search(json_pattern, text, DOTALL | IGNORECASE)` with
the source's pattern (a fenced `{...}` block, optional `json` marker),
returning the captured group (prompt_improver.py:174-178). -/
def fenceSearch (s : String) : Option String :=
  fenceSearchAux (s.length + 1) s.data

/-- Insert-or-overwrite into the adaptations dict of the text fallback. -/
def strInsert (kvs : List (String × String)) (k v : String) :
    List (String × String) :=
  if (kvs.find? (fun kv => kv.1 = k)).isSome then
    kvs.map (fun kv => if kv.1 = k then (k, v) else kv)
  else kvs ++ [(k, v)]

/-- Section cursor of the heuristic text fallback. -/
inductive PISection where
  | improved
  | alternatives
  | adaptations
deriving DecidableEq

/-- Loop state of `_parse_text_response`'s line scan. -/
structure PTState where
  current_section : Option PISection
  improved : String
  improved_lines : List String
  alternative_lines : List String
  adaptations : List (String × String)

/-- Keywords switching to the improved section (prompt_improver.py:269). -/
def improvedKeys : List String :=
  ["улучшен", "improved", "лучший вариант", "рекомендуемый"]

/-- Keywords switching to the alternatives section (line 277). -/
def altKeys : List String :=
  ["альтернатив", "alternative", "вариант", "другой"]

/-- Keywords switching to the adaptations section (line 280). -/
def adaptKeys : List String :=
  ["адаптац", "adaptation", "для программирования", "для анализа", "для креатива"]

/-- Keywords of the code adaptation (line 283). -/
def codeKeys : List String := ["код", "code", "программирование", "programming"]

/-- Keywords of the analysis adaptation (line 288). -/
def analysisKeys : List String := ["анализ", "analysis", "аналитик"]

/-- Keywords of the creative adaptation (line 293). -/
def creativeKeys : List String := ["креатив", "creative", "творческ"]

/-- `any(keyword in line_lower for keyword in keys)`. -/
def anyKeyIn (keys : List String) (ll : String) : Bool :=
  keys.any (fun k => pySubstr k ll)

/-- `line.split(':', 1)[1]` (callers guard on `':' in line`). -/
def afterColon (s : String) : String :=
  match s.data.dropWhile (fun c => c ≠ ':') with
  | _ :: t => ⟨t⟩
  | [] => ""

/-- `line.lstrip('- *•').strip()` — the cleaned alternative line. -/
def clean_line (line : String) : String :=
  pyStrip (pyLStrip ['-', ' ', '*', '•'] line)

/-- One iteration of `_parse_text_response`'s `for line in lines` loop
(prompt_improver.py:261-312). -/
def parseLineStep (st : PTState) (rawLine : String) : PTState :=
  let line := pyStrip rawLine
  if line = "" then st
  else
    let ll := pyLower line
    if anyKeyIn improvedKeys ll then
      if line.data.contains ':' then
        { st with current_section := some .improved,
                  improved := pyStrip (afterColon line) }
      else { st with current_section := some .improved }
    else if anyKeyIn altKeys ll then
      { st with current_section := some .alternatives }
    else if anyKeyIn adaptKeys ll then
      { st with current_section := some .adaptations }
    else if anyKeyIn codeKeys ll then
      { st with
        adaptations := if line.data.contains ':' then
            strInsert st.adaptations "code" (pyStrip (afterColon line))
          else st.adaptations,
        current_section := some .adaptations }
    else if anyKeyIn analysisKeys ll then
      { st with
        adaptations := if line.data.contains ':' then
            strInsert st.adaptations "analysis" (pyStrip (afterColon line))
          else st.adaptations,
        current_section := some .adaptations }
    else if anyKeyIn creativeKeys ll then
      { st with
        adaptations := if line.data.contains ':' then
            strInsert st.adaptations "creative" (pyStrip (afterColon line))
          else st.adaptations,
        current_section := some .adaptations }
    else
      match st.current_section with
      | some .improved =>
        if st.improved = "" then { st with improved := line }
        else { st with improved_lines := st.improved_lines ++ [line] }
      | some .alternatives =>
        let cl := clean_line line
        if cl ≠ "" ∧ cl.length > 10 then
          { st with alternative_lines := st.alternative_lines ++ [cl] }
        else st
      | some .adaptations => st
      | none => st

/-- Python `str.split('\\n')` on the character list: split at every
newline, keeping empty pieces. -/
def splitNl : List Char → List (List Char)
  | [] => [[]]
  | c :: rest =>
    let r := splitNl rest
    if c = '\n' then [] :: r
    else match r with
      | h :: t => (c :: h) :: t
      | [] => [[c]]

/-- Python `response_text.split('\\n')`. -/
def pySplitNl (s : String) : List String :=
  (splitNl s.data).map (fun l => ⟨l⟩)

/-- `PromptImprover._parse_text_response` (prompt_improver.py:242-333):
line scan, then assembly with the 200-character truncation fallback. -/
def _parse_text_response (response_text : String) : ImproveResult :=
  let lines := pySplitNl response_text
  let st := lines.foldl parseLineStep ⟨none, "", [], [], []⟩
  let improved1 :=
    if st.improved_lines.isEmpty then st.improved
    else st.improved ++ " " ++ String.intercalate " " st.improved_lines
  let alternatives := st.alternative_lines.take 3
  let improved2 :=
    if improved1 = "" then
      let t := pyStrip response_text
      if t.length > 200 then pyTake t 200 ++ "..." else t
    else improved1
  .parsed (pyStrip improved2) alternatives st.adaptations

/-- `PromptImprover._parse_response` (prompt_improver.py:153-198): blank
check, fenced-JSON attempt, first-`{`-to-last-`}` attempt, then the
heuristic text fallback. -/
def _parse_response (response_text : String) : Except PyErr ImproveResult :=
  if response_text = "" ∨ pyStrip response_text = "" then
    .ok (.failure "Пустой ответ от модели")
  else
    let step2 : Except PyErr ImproveResult :=
      match pyFind lbrace response_text, pyRFind rbrace response_text with
      | some js, some jr =>
        if jr + 1 > js then
          match json_loads (pySlice response_text js (jr + 1)) with
          | some data => _validate_parsed_data data
          | none => .ok (_parse_text_response response_text)
        else .ok (_parse_text_response response_text)
      | _, _ => .ok (_parse_text_response response_text)
    match fenceSearch response_text with
    | some jstr =>
      match json_loads jstr with
      | some data => _validate_parsed_data data
      | none => step2
    | none => step2

/-- The JSON value `_parse_response` would hand to the validator, if any:
the fenced candidate when it decodes, else the brace-substring candidate. -/
def recoveredJson (s : String) : Option Json :=
  let braceJson : Option Json :=
    match pyFind lbrace s, pyRFind rbrace s with
    | some js, some jr =>
      if jr + 1 > js then json_loads (pySlice s js (jr + 1)) else none
    | _, _ => none
  match fenceSearch s with
  | some f =>
    match json_loads f with
    | some d => some d
    | none => braceJson
  | none => braceJson

/-- Does the recovered JSON object hand the validator a usable `improved`
field (absent or a string)?  Exactly the condition under which
`_validate_parsed_data` does not raise. -/
def improvedFieldOk : Json → Bool
  | .obj kvs =>
    match jsonLookup kvs "improved" with
    | none => true
    | some (.str _) => true
    | some _ => false
  | _ => false

/-! ### Shared concrete inputs for witnesses and counterexamples -/

/-- An environment with no credentials set. -/
def envNone : String → Option String := fun _ => none

/-- An environment holding one credential. -/
def envKey : String → Option String :=
  fun n => if n = "KEY" then some "sk-test-1" else none

/-- A trivially succeeding network oracle. -/
def netTrivial : Provider → String → String → Except String Outcome :=
  fun _ _ _ => .ok { success := true, text := .str "ok" }

/-- A sample registry row. -/
def mSample : Model := ⟨1, "M", "https://openrouter.ai/api/v1", "KEY", none⟩

/-! ### Claim theorems -/

/-- Helper: every outcome produced by `send_prompt_to_model` carries the
model's display name. -/
theorem send_prompt_to_model_name (env : String → Option String) (T : Nat)
    (net : Provider → String → String → Except String Outcome)
    (prompt : String) (m : Model) (cache : List (Int × Provider)) :
    (send_prompt_to_model env T net prompt m cache).outcome.model_name
      = some m.name := by
  unfold send_prompt_to_model
  cases h : (_get_provider env T cache m).provider with
  | none => simp [h]
  | some p => cases hn : net p (api_model_name m) prompt <;> simp [h, hn]

/-- C1: for every prompt and every list of N active targets read from the
registry, `send_prompt_to_all_active` returns exactly N outcome dicts, one
per target, in the same order as the target list (each outcome is stamped
with its own target's name, in list order). -/
theorem C1_dispatch_one_outcome_per_target (env : String → Option String)
    (T : Nat) (net : Provider → String → String → Except String Outcome)
    (prompt : String) (active_models : List Model)
    (cache : List (Int × Provider)) :
    (send_prompt_to_all_active env T net prompt active_models cache).outcomes.length
      = active_models.length ∧
    (send_prompt_to_all_active env T net prompt active_models cache).outcomes.map
        (fun o => o.model_name)
      = active_models.map (fun m => some m.name) := by
  induction active_models generalizing cache with
  | nil => exact ⟨rfl, rfl⟩
  | cons m ms ih =>
    have h := ih (send_prompt_to_model env T net prompt m cache).cache
    refine ⟨?_, ?_⟩
    · simpa [send_prompt_to_all_active] using h.1
    · simpa [send_prompt_to_all_active, send_prompt_to_model_name] using h.2

/-- C6 counterexample: the claim says every outcome carries both the
target's id and name; but for a target whose credential is missing the
provider-unavailable dict (models.py:126-131) has no `model_id` key. -/
theorem C6_counterexample :
    (send_prompt_to_model envNone 30 netTrivial "p" mSample []).outcome.model_id
        = none ∧
    (send_prompt_to_model envNone 30 netTrivial "p" mSample []).outcome.model_name
        = some "M" ∧
    (send_prompt_to_model envNone 30 netTrivial "p" mSample []).outcome.success
        = false :=
  ⟨rfl, rfl, rfl⟩

/-- C6 (amended): every outcome carries the target's name; outcomes from
the send and exception branches also carry the target's id, but the
provider-unavailable failure dict omits it. -/
theorem C6_outcome_identification (env : String → Option String) (T : Nat)
    (net : Provider → String → String → Except String Outcome)
    (prompt : String) (m : Model) (cache : List (Int × Provider)) :
    (send_prompt_to_model env T net prompt m cache).outcome.model_name
        = some m.name ∧
    ((send_prompt_to_model env T net prompt m cache).outcome.model_id
        = some m.id ∨
      ((send_prompt_to_model env T net prompt m cache).outcome.model_id = none ∧
       (send_prompt_to_model env T net prompt m cache).outcome.success = false ∧
       (send_prompt_to_model env T net prompt m cache).outcome.error
         = some (.str ("Provider not available for model " ++ m.name)))) := by
  unfold send_prompt_to_model
  cases h : (_get_provider env T cache m).provider with
  | none => refine ⟨?_, .inr ⟨?_, ?_, ?_⟩⟩ <;> simp [h]
  | some p =>
    cases hn : net p (api_model_name m) prompt with
    | ok r => refine ⟨?_, .inl ?_⟩ <;> simp [h, hn]
    | error e => refine ⟨?_, .inl ?_⟩ <;> simp [h, hn]

/-- Helper: a dispatch round over an appended target list is the round over
the prefix followed by the round over the suffix, threading the cache. -/
theorem send_all_append (env : String → Option String) (T : Nat)
    (net : Provider → String → String → Except String Outcome)
    (prompt : String) (xs ys : List Model) (c : List (Int × Provider)) :
    send_prompt_to_all_active env T net prompt (xs ++ ys) c =
      ⟨(send_prompt_to_all_active env T net prompt xs c).outcomes ++
          (send_prompt_to_all_active env T net prompt ys
            (send_prompt_to_all_active env T net prompt xs c).cache).outcomes,
        (send_prompt_to_all_active env T net prompt ys
          (send_prompt_to_all_active env T net prompt xs c).cache).cache,
        (send_prompt_to_all_active env T net prompt xs c).netCalls +
          (send_prompt_to_all_active env T net prompt ys
            (send_prompt_to_all_active env T net prompt xs c).cache).netCalls,
        (send_prompt_to_all_active env T net prompt xs c).credReads ++
          (send_prompt_to_all_active env T net prompt ys
            (send_prompt_to_all_active env T net prompt xs c).cache).credReads⟩ := by
  induction xs generalizing c with
  | nil => simp [send_prompt_to_all_active]
  | cons x xs ih =>
    simp only [List.cons_append, send_prompt_to_all_active, List.append_eq, ih,
      List.append_assoc, Nat.add_assoc]

/-- Helper: with no cached adapter and a falsy credential, one send step is
exactly the provider-unavailable failure with no network invocation and an
unchanged cache. -/
theorem send_blank_credential_step (env : String → Option String) (T : Nat)
    (net : Provider → String → String → Except String Outcome)
    (prompt : String) (m : Model) (c : List (Int × Provider))
    (hc : c.lookup m.id = none)
    (hk : keyTruthy (load_api_key env m.api_id) = false) :
    send_prompt_to_model env T net prompt m c =
      ⟨{ success := false,
         error := some (.str ("Provider not available for model " ++ m.name)),
         text := .str "", model_name := some m.name }, c, 0, [m.api_id]⟩ := by
  unfold send_prompt_to_model _get_provider
  simp [hc, hk]

/-- C2: a target whose credential reference resolves to a missing or blank
value (and which has no previously cached adapter — under a fixed
environment, `_get_provider` never caches such a target, so this holds in
every reachable state) yields the auth failure dict with zero invocations
of the provider network layer, and the failure is contained: the outcomes
of all the other targets in the round are exactly what they would be
without it, and the auth-failing target contributes no network calls. -/
theorem C2_blank_credential_contained (env : String → Option String) (T : Nat)
    (net : Provider → String → String → Except String Outcome)
    (prompt : String) (pre post : List Model) (m : Model)
    (c0 : List (Int × Provider))
    (hc : ((send_prompt_to_all_active env T net prompt pre c0).cache).lookup m.id
        = none)
    (hk : keyTruthy (load_api_key env m.api_id) = false) :
    (send_prompt_to_all_active env T net prompt (pre ++ m :: post) c0).outcomes
      = (send_prompt_to_all_active env T net prompt pre c0).outcomes ++
        ({ success := false,
           error := some (.str ("Provider not available for model " ++ m.name)),
           text := .str "", model_name := some m.name } : Outcome) ::
        (send_prompt_to_all_active env T net prompt post
          (send_prompt_to_all_active env T net prompt pre c0).cache).outcomes ∧
    (send_prompt_to_all_active env T net prompt (pre ++ m :: post) c0).netCalls
      = (send_prompt_to_all_active env T net prompt pre c0).netCalls +
        (send_prompt_to_all_active env T net prompt post
          (send_prompt_to_all_active env T net prompt pre c0).cache).netCalls ∧
    ({ success := false,
       error := some (.str ("Provider not available for model " ++ m.name)),
       text := .str "", model_name := some m.name } : Outcome).success = false := by
  have hstep := send_blank_credential_step env T net prompt m
    (send_prompt_to_all_active env T net prompt pre c0).cache hc hk
  have happ := send_all_append env T net prompt pre (m :: post) c0
  refine ⟨?_, ?_, rfl⟩ <;>
    simp [happ, send_prompt_to_all_active, hstep]

/-- C2 witness: a concrete one-target round with a missing credential. -/
theorem C2_witness :
    ((send_prompt_to_all_active envNone 30 netTrivial "p" [] []).cache).lookup
        mSample.id = none ∧
    keyTruthy (load_api_key envNone mSample.api_id) = false ∧
    (send_prompt_to_all_active envNone 30 netTrivial "p"
        ([] ++ mSample :: []) []).outcomes
      = (send_prompt_to_all_active envNone 30 netTrivial "p" [] []).outcomes ++
        ({ success := false,
           error := some (.str ("Provider not available for model " ++ mSample.name)),
           text := .str "", model_name := some mSample.name } : Outcome) ::
        (send_prompt_to_all_active envNone 30 netTrivial "p" []
          (send_prompt_to_all_active envNone 30 netTrivial "p" [] []).cache).outcomes :=
  ⟨rfl, rfl,
    (C2_blank_credential_contained envNone 30 netTrivial "p" [] [] mSample []
      rfl rfl).1⟩

/-- Helper: the provider family detected for a URL is one of the four known
(lowercase) types, so `create_provider` always succeeds on it. -/
theorem create_provider_detect (env : String → Option String)
    (url k : String) (T : Nat) :
    create_provider env (detect_provider_type url) k url T none =
      some ⟨detect_provider_type url, k, url, T,
        !(envFlagTrue env "DISABLE_SSL_VERIFY")⟩ := by
  simp only [detect_provider_type]
  split_ifs <;> rfl

/-- C10: adapter-cache policy of `_get_provider` — (i) a cache hit returns
the cached adapter without reading any credential and without touching the
cache; (ii) on a miss, a falsy credential leaves the cache unchanged (so the
resolution is re-attempted, with a fresh credential read, on every later
call); (iii) on a miss with a usable credential, the returned adapter
permanently embeds that credential and the transport settings, is cached
under the target id, and a subsequent call reuses it with no credential
read; (iv) `clear_cache` empties the whole cache. -/
theorem C10_adapter_cache_policy (env : String → Option String) (T : Nat)
    (cache : List (Int × Provider)) (m : Model) :
    (∀ p, cache.lookup m.id = some p →
      _get_provider env T cache m = ⟨some p, cache, []⟩) ∧
    (cache.lookup m.id = none →
      keyTruthy (load_api_key env m.api_id) = false →
      _get_provider env T cache m = ⟨none, cache, [m.api_id]⟩) ∧
    (∀ k, cache.lookup m.id = none →
      load_api_key env m.api_id = some k → k ≠ "" →
      ∃ p, _get_provider env T cache m = ⟨some p, (m.id, p) :: cache, [m.api_id]⟩ ∧
        p.api_key = k ∧ p.api_url = m.api_url ∧ p.timeout = T ∧
        p.ptype = detect_provider_type m.api_url ∧
        _get_provider env T ((m.id, p) :: cache) m
          = ⟨some p, (m.id, p) :: cache, []⟩) ∧
    clear_cache cache = [] := by
  refine ⟨?_, ?_, ?_, rfl⟩
  · intro p hp
    unfold _get_provider
    simp [hp]
  · intro hc hk
    unfold _get_provider
    simp [hc, hk]
  · intro k hc hkey hkne
    have hkt : keyTruthy (some k) = true := by
      show decide (¬(k = "")) = true
      exact decide_eq_true hkne
    refine ⟨⟨detect_provider_type m.api_url, k, m.api_url, T,
      !(envFlagTrue env "DISABLE_SSL_VERIFY")⟩, ?_, rfl, rfl, rfl, rfl, ?_⟩
    · unfold _get_provider
      simp [hc, hkt, hkey, create_provider_detect]
    · unfold _get_provider
      simp [List.lookup]

/-- C10 witness: a concrete first resolution, cached reuse, and cache
clearing for a sample target. -/
theorem C10_witness :
    (([] : List (Int × Provider)).lookup mSample.id = none) ∧
    load_api_key envKey mSample.api_id = some "sk-test-1" ∧
    ∃ p, _get_provider envKey 30 [] mSample
        = ⟨some p, (mSample.id, p) :: [], [mSample.api_id]⟩ ∧
      p.api_key = "sk-test-1" ∧ p.api_url = mSample.api_url ∧ p.timeout = 30 ∧
      p.ptype = detect_provider_type mSample.api_url ∧
      _get_provider envKey 30 ((mSample.id, p) :: []) mSample
        = ⟨some p, (mSample.id, p) :: [], []⟩ :=
  ⟨rfl, rfl,
    (C10_adapter_cache_policy envKey 30 [] mSample).2.2.1 "sk-test-1" rfl rfl
      (by decide)⟩

/-- C3 counterexample: the claim asserts the 3-attempt timeout policy for
every provider family, but `OpenAIProvider.send_request` (like DeepSeek and
Groq) issues a single `requests.post` and fails after one attempt. -/
theorem C3_counterexample :
    (openai_send_request (fun _ => PostResult.timeout)).attempts = 1 ∧
    (openai_send_request (fun _ => PostResult.timeout)).outcome
      = failOut (.str "Request timeout") ∧
    (1 : Nat) ≠ 3 :=
  ⟨rfl, rfl, by decide⟩

/-- C3 (amended): for the OpenRouter provider, a transport that times out
on every attempt yields exactly 3 HTTP attempts, constant backoff sleeps of
2 between them, and the final timeout failure outcome. -/
theorem C3_openrouter_timeout_three_attempts (key model : String)
    (t : Nat → PostResult)
    (hk : ¬(key = "" ∨ pyStrip key = ""))
    (ht : ∀ n, t n = .timeout) :
    openRouter_send_request key model t
      = ⟨failOut (.str orTimeoutFinalMsg), 3, [2, 2], false⟩ := by
  have htf : t = fun _ => PostResult.timeout := funext ht
  subst htf
  unfold openRouter_send_request
  rw [if_neg hk]
  rfl

/-- C3 witness: a concrete always-timeout run with a non-blank key. -/
theorem C3_witness :
    (¬(("k" : String) = "" ∨ pyStrip "k" = "")) ∧
    openRouter_send_request "k" "m" (fun _ => PostResult.timeout)
      = ⟨failOut (.str orTimeoutFinalMsg), 3, [2, 2], false⟩ :=
  ⟨by decide,
    C3_openrouter_timeout_three_attempts "k" "m" _ (by decide) (fun _ => rfl)⟩

/-- A 200 body whose `choices` value has no length: `{"choices": 5}`. -/
def c4Body : Json := .obj [("choices", .num 5)]

/-- C4 counterexample: a 2xx response whose body lacks a non-empty
`choices` array but maps `choices` to a number makes `parse_response` raise
`TypeError` (not in the caught tuple), so the outcome is a retried failure,
not a success with empty text. -/
theorem C4_counterexample :
    parse_response (some c4Body) = .error .typeError ∧
    openRouter_send_request "k" "m" (fun _ => .ok 200 (some c4Body))
      = ⟨failOut (.str "Неожиданная ошибка: TypeError"), 3, [2, 2], false⟩ ∧
    (openRouter_send_request "k" "m"
        (fun _ => .ok 200 (some c4Body))).outcome.success = false :=
  ⟨rfl, rfl, rfl⟩

/-- C4 (amended): for a 2xx response whose JSON-object body has no
`choices` key, or maps `choices` to an empty array, `parse_response`
returns the empty string and the resulting outcome is a success with empty
text (shown for both the OpenRouter and the OpenAI provider); bodies whose
`choices` value has no length are instead classified as failures (see the
counterexample). -/
theorem C4_empty_choices_success_empty (key model : String)
    (t : Nat → PostResult) (kvs : List (String × Json))
    (hk : ¬(key = "" ∨ pyStrip key = ""))
    (ht : t 0 = .ok 200 (some (.obj kvs)))
    (hch : jsonLookup kvs "choices" = none ∨
           jsonLookup kvs "choices" = some (.arr [])) :
    parse_response (some (.obj kvs)) = .ok (.str "") ∧
    openRouter_send_request key model t
      = ⟨{ success := true, text := .str "",
           raw_response := some (.obj kvs) }, 1, [], false⟩ ∧
    openai_send_request t
      = ⟨{ success := true, text := .str "",
           raw_response := some (.obj kvs) }, 1, [], false⟩ := by
  have hp : parse_response (some (.obj kvs)) = .ok (.str "") := by
    unfold parse_response
    rcases hch with h | h <;>
      simp [pyContains, pyGetItem, pyLen, h, Except.bind, Bind.bind, Pure.pure,
        Except.pure]
  refine ⟨hp, ?_, ?_⟩
  · unfold openRouter_send_request
    rw [if_neg hk]
    show orGo _ t max_ssl_retries 0 [] false = _
    simp only [max_ssl_retries, orGo, ht, hp]
    norm_num
  · unfold openai_send_request
    rw [ht]
    simp [hp]

/-- C4 witness: a concrete 200 response with an empty `choices` array. -/
theorem C4_witness :
    (¬(("k" : String) = "" ∨ pyStrip "k" = "")) ∧
    jsonLookup [("choices", Json.arr [])] "choices" = some (.arr []) ∧
    parse_response (some (.obj [("choices", Json.arr [])])) = .ok (.str "") ∧
    openRouter_send_request "k" "m"
        (fun _ => .ok 200 (some (.obj [("choices", Json.arr [])])))
      = ⟨{ success := true, text := .str "",
           raw_response := some (.obj [("choices", Json.arr [])]) }, 1, [], false⟩ :=
  ⟨by decide, rfl,
    (C4_empty_choices_success_empty "k" "m"
      (fun _ => .ok 200 (some (.obj [("choices", Json.arr [])])))
      [("choices", Json.arr [])] (by decide) rfl (Or.inr rfl)).1,
    (C4_empty_choices_success_empty "k" "m"
      (fun _ => .ok 200 (some (.obj [("choices", Json.arr [])])))
      [("choices", Json.arr [])] (by decide) rfl (Or.inr rfl)).2.1⟩

/-- C7 counterexample: on an always-timing-out transport the two backoff
sleeps are both the constant base 2, not base × attempt number
(which would be [2, 4]) — the timeout branch sleeps
`ssl_retry_delay`, not `ssl_retry_delay * (attempt + 1)`. -/
theorem C7_counterexample :
    (openRouter_send_request "k" "m" (fun _ => PostResult.timeout)).sleeps
      = [2, 2] ∧
    ([2, 2] : List Nat) ≠ [ssl_retry_delay * 1, ssl_retry_delay * 2] :=
  ⟨rfl, by decide⟩

/-- C7 (amended): the backoff delay is `base * attempt_number` only for the
SSL, 5xx and (non-first-attempt) proxy retry categories; the timeout,
HTTP-429/other-RequestException and unexpected-exception categories retry
with the constant base delay of 2. -/
theorem C7_backoff_per_category (key model msg : String) (body : Option Json)
    (hk : ¬(key = "" ∨ pyStrip key = ""))
    (hmsg : pySubstr "Cannot connect to proxy" msg = false) :
    (openRouter_send_request key model (fun _ => .sslError msg)).sleeps
        = [2, 4] ∧
    (openRouter_send_request key model (fun _ => .proxyError msg)).sleeps
        = [2, 4] ∧
    (∀ s, s = 500 ∨ s = 502 ∨ s = 503 ∨ s = 504 →
      (openRouter_send_request key model (fun _ => .ok s body)).sleeps
        = [2, 4]) ∧
    (openRouter_send_request key model (fun _ => .timeout)).sleeps = [2, 2] ∧
    (openRouter_send_request key model (fun _ => .ok 429 body)).sleeps
        = [2, 2] ∧
    (openRouter_send_request key model (fun _ => .otherExc msg)).sleeps
        = [2, 2] ∧
    (openRouter_send_request key model (fun _ => .reqError msg)).sleeps
        = [2, 2] := by
  refine ⟨?_, ?_, ?_, ?_, ?_, ?_, ?_⟩
  · unfold openRouter_send_request; rw [if_neg hk]; rfl
  · unfold openRouter_send_request; rw [if_neg hk]
    show (orGo _ _ max_ssl_retries 0 [] false).sleeps = _
    simp only [max_ssl_retries, orGo, hmsg, ssl_retry_delay]
    norm_num
  · rintro s (rfl | rfl | rfl | rfl) <;>
      (unfold openRouter_send_request; rw [if_neg hk]; rfl)
  · unfold openRouter_send_request; rw [if_neg hk]; rfl
  · unfold openRouter_send_request; rw [if_neg hk]; rfl
  · unfold openRouter_send_request; rw [if_neg hk]; rfl
  · unfold openRouter_send_request; rw [if_neg hk]; rfl

/-- C7 witness: a concrete SSL-error run (linear sleeps) and a concrete
timeout run (constant sleeps). -/
theorem C7_witness :
    (¬(("k" : String) = "" ∨ pyStrip "k" = "")) ∧
    pySubstr "Cannot connect to proxy" "boom" = false ∧
    (openRouter_send_request "k" "m" (fun _ => .sslError "boom")).sleeps
        = [2, 4] ∧
    (openRouter_send_request "k" "m" (fun _ => PostResult.timeout)).sleeps
        = [2, 2] :=
  ⟨by decide, by decide,
    (C7_backoff_per_category "k" "m" "boom" none (by decide) (by decide)).1,
    (C7_backoff_per_category "k" "m" "boom" none (by decide) (by decide)).2.2.2.1⟩

/-- Helper: the OpenRouter retry loop performs at most `attempt + fuel`
total HTTP attempts. -/
theorem orGo_attempts_le (model : String) (t : Nat → PostResult) :
    ∀ (fuel attempt : Nat) (sleeps : List Nat) (d : Bool),
      (orGo model t fuel attempt sleeps d).attempts ≤ attempt + fuel := by
  intro fuel
  induction fuel with
  | zero => intro attempt sleeps d; simp [orGo]
  | succ n ih =>
    intro attempt sleeps d
    unfold orGo
    cases t attempt <;> dsimp only <;> repeat' split
    all_goals first
      | (exact le_trans (ih _ _ _) (by omega))
      | (simp only []; omega)

/-- The transport of the C8 counterexample: a cannot-connect proxy error on
the first attempt, then timeouts. -/
def c8T : Nat → PostResult := fun n =>
  if n = 0 then .proxyError "Cannot connect to proxy at host" else .timeout

/-- C8 counterexample: the claim says the immediate proxy retry is not
counted against the 3-attempt budget (so up to 3 normal attempts, 4 posts
total, would remain possible); but the `continue` advances the loop
counter, so the whole run performs only 3 posts — after the proxy-disable
retry just 2 normal attempts happened. -/
theorem C8_counterexample :
    (openRouter_send_request "k" "m" c8T).proxyDisabled = true ∧
    (openRouter_send_request "k" "m" c8T).attempts = 3 ∧
    (openRouter_send_request "k" "m" c8T).outcome
      = failOut (.str orTimeoutFinalMsg) ∧
    (3 : Nat) - 1 ≠ 3 :=
  ⟨rfl, rfl, rfl, by decide⟩

/-- C8 (amended): a first-attempt proxy error whose text contains "Cannot
connect to proxy" disables the session's proxies and retries immediately
with no backoff sleep — but the retry consumes the loop counter: the run
continues as the loop body at attempt index 1 with only 2 iterations of
budget left, and the whole call never exceeds 3 HTTP attempts. -/
theorem C8_proxy_disable_consumes_attempt (key model msg : String)
    (t : Nat → PostResult)
    (hk : ¬(key = "" ∨ pyStrip key = ""))
    (h0 : t 0 = .proxyError msg)
    (hmsg : pySubstr "Cannot connect to proxy" msg = true) :
    openRouter_send_request key model t
      = orGo (if model = "" then "openai/gpt-3.5-turbo" else model) t 2 1 [] true ∧
    (openRouter_send_request key model t).attempts ≤ 3 := by
  have hstep : openRouter_send_request key model t
      = orGo (if model = "" then "openai/gpt-3.5-turbo" else model) t 2 1 []
          true := by
    unfold openRouter_send_request
    rw [if_neg hk]
    show orGo _ t max_ssl_retries 0 [] false = _
    simp [max_ssl_retries, orGo, h0, hmsg]
  refine ⟨hstep, ?_⟩
  rw [hstep]
  exact le_trans (orGo_attempts_le _ t 2 1 [] true) (by omega)

/-- C8 witness: the concrete counterexample transport satisfies the
hypotheses, and the run equals the attempt-1 continuation. -/
theorem C8_witness :
    c8T 0 = .proxyError "Cannot connect to proxy at host" ∧
    pySubstr "Cannot connect to proxy" "Cannot connect to proxy at host"
        = true ∧
    openRouter_send_request "k" "m" c8T
      = orGo (if ("m" : String) = "" then "openai/gpt-3.5-turbo" else "m")
          c8T 2 1 [] true ∧
    (openRouter_send_request "k" "m" c8T).attempts ≤ 3 :=
  ⟨rfl, by decide,
    (C8_proxy_disable_consumes_attempt "k" "m" _ c8T (by decide) rfl
      (by decide)).1,
    (C8_proxy_disable_consumes_attempt "k" "m" _ c8T (by decide) rfl
      (by decide)).2⟩

/-- Helper: for non-blank input, `_parse_response` dispatches on the
recovered JSON candidate exactly as `recoveredJson` describes, falling back
to the heuristic text parse. -/
theorem _parse_response_eq_recovered (s : String)
    (hs : ¬(s = "" ∨ pyStrip s = "")) :
    _parse_response s = (match recoveredJson s with
      | some d => _validate_parsed_data d
      | none => .ok (_parse_text_response s)) := by
  unfold _parse_response recoveredJson
  rw [if_neg hs]
  cases hf : fenceSearch s with
  | some f =>
    cases hj : json_loads f with
    | some d => simp [hj]
    | none =>
      cases h1 : pyFind lbrace s with
      | some js =>
        cases h2 : pyRFind rbrace s with
        | some jr =>
          by_cases hlt : jr + 1 > js
          · cases json_loads (pySlice s js (jr + 1)) <;> simp [hj, hlt]
          · simp [hj, hlt]
        | none => simp [hj]
      | none => simp [hj]
  | none =>
    cases h1 : pyFind lbrace s with
    | some js =>
      cases h2 : pyRFind rbrace s with
      | some jr =>
        by_cases hlt : jr + 1 > js
        · cases json_loads (pySlice s js (jr + 1)) <;> simp [hlt]
        · simp [hlt]
      | none => simp
    | none => simp

/-- Helper: the validator succeeds (with a parsed triple) whenever the
object's `improved` field is absent or a string. -/
theorem _validate_parsed_data_ok (d : Json) (h : improvedFieldOk d = true) :
    ∃ i a ad, _validate_parsed_data d = .ok (.parsed i a ad) := by
  cases d <;> simp [improvedFieldOk] at h
  case obj kvs =>
    unfold _validate_parsed_data
    cases hl : jsonLookup kvs "improved" with
    | none => simp [hl]
    | some v => cases v <;> simp [hl] at h ⊢

/-- C5 counterexample: the claim says the extractor never raises; but on
an input whose recovered JSON object maps `improved` to `null`,
`data.get("improved", "").strip()` raises `AttributeError`
(prompt_improver.py:210). -/
theorem C5_counterexample :
    _parse_response "\x7b\"improved\": null\x7d" = .error .attributeError :=
  rfl

/-- C5 (amended): the extractor never raises and returns a best-effort
parsed triple — with absent fields defaulting to empty string / empty list
/ empty mapping — for every non-blank input whose recovered JSON object (if
any) has `improved` absent or a string; blank input instead returns the
explicit error-only dict, and a recovered object with a non-string
`improved` raises `AttributeError` (see the counterexample). -/
theorem C5_extract_never_raises_best_effort (s : String)
    (hs : ¬(s = "" ∨ pyStrip s = ""))
    (hok : ∀ d, recoveredJson s = some d → improvedFieldOk d = true) :
    (∃ i a ad, _parse_response s = .ok (.parsed i a ad)) ∧
    (∀ s', (s' = "" ∨ pyStrip s' = "") →
      _parse_response s' = .ok (.failure "Пустой ответ от модели")) ∧
    (∀ kvs, jsonLookup kvs "improved" = none →
      jsonLookup kvs "alternatives" = none →
      jsonLookup kvs "adaptations" = none →
      _validate_parsed_data (.obj kvs) = .ok (.parsed "" [] [])) := by
  refine ⟨?_, ?_, ?_⟩
  · rw [_parse_response_eq_recovered s hs]
    cases hr : recoveredJson s with
    | some d => exact _validate_parsed_data_ok d (hok d hr)
    | none => exact ⟨_, _, _, rfl⟩
  · intro s' h
    unfold _parse_response
    rw [if_pos h]
  · intro kvs h1 h2 h3
    unfold _validate_parsed_data
    simp [h1, h2, h3]
    exact ⟨rfl, rfl, rfl, rfl⟩

/-- A plain answer with neither fences, braces nor section keywords. -/
def c5Sample : String := "just a plain answer with no structure"

/-- C5 witness: the amended theorem at a concrete prose input. -/
theorem C5_witness :
    (¬(c5Sample = "" ∨ pyStrip c5Sample = "")) ∧
    (∃ i a ad, _parse_response c5Sample = .ok (.parsed i a ad)) :=
  ⟨by decide,
    (C5_extract_never_raises_best_effort c5Sample (by decide)
      (fun d hd => by
        rw [show recoveredJson c5Sample = none from rfl] at hd
        cases hd)).1⟩

/-- The C9 counterexample input: an alternatives header followed by a list
item whose stripped text has exactly 10 characters. -/
def c9Input : String := "alternatives:\n- 0123456789"

/-- C9 counterexample: the stripped list item "0123456789" is not shorter
than 10 characters, yet the fallback discards it (the code keeps strictly
longer than 10 only), so the parsed alternatives list is empty. -/
theorem C9_counterexample :
    clean_line "- 0123456789" = "0123456789" ∧
    ("0123456789" : String).length = 10 ∧
    _parse_response c9Input = .ok (.parsed "alternatives:\n- 0123456789" [] []) ∧
    (([] : List String) ≠ ["0123456789"]) :=
  ⟨rfl, rfl, rfl, by decide⟩

/-- C9 (amended): in the heuristic fallback, a non-blank line processed in
the alternatives section (and matching no section keyword) has its leading
`-`/`*`/`•`/space markers stripped and is kept if and only if the stripped
line is strictly longer than 10 characters; lines of length ≤ 10
(including exactly 10) are discarded. -/
theorem C9_alternative_kept_iff_longer_than_10 (st : PTState) (line : String)
    (hsec : st.current_section = some .alternatives)
    (hne : pyStrip line ≠ "")
    (h1 : anyKeyIn improvedKeys (pyLower (pyStrip line)) = false)
    (h2 : anyKeyIn altKeys (pyLower (pyStrip line)) = false)
    (h3 : anyKeyIn adaptKeys (pyLower (pyStrip line)) = false)
    (h4 : anyKeyIn codeKeys (pyLower (pyStrip line)) = false)
    (h5 : anyKeyIn analysisKeys (pyLower (pyStrip line)) = false)
    (h6 : anyKeyIn creativeKeys (pyLower (pyStrip line)) = false) :
    parseLineStep st line =
      (if 10 < (clean_line (pyStrip line)).length then
        { st with alternative_lines :=
            st.alternative_lines ++ [clean_line (pyStrip line)] }
      else st) := by
  unfold parseLineStep
  simp only [hne, h1, h2, h3, h4, h5, h6, hsec, if_false, Bool.false_eq_true,
    if_neg, ite_false]
  by_cases hlen : 10 < (clean_line (pyStrip line)).length
  · have hne2 : clean_line (pyStrip line) ≠ "" := by
      intro he
      rw [he] at hlen
      simp at hlen
    simp [hlen, hne2]
  · simp [hlen]

/-- The state in which the C9 witness processes its line. -/
def c9St : PTState := ⟨some .alternatives, "", [], [], []⟩

/-- C9 witness: an 11-character stripped line is kept. -/
theorem C9_witness :
    parseLineStep c9St "- 01234567890" =
      { c9St with alternative_lines := ["01234567890"] } := by
  have h := C9_alternative_kept_iff_longer_than_10 c9St "- 01234567890" rfl
    (by decide) (by decide) (by decide) (by decide) (by decide) (by decide)
    (by decide)
  rw [h]
  rfl
